import Mathlib

/-!
Shallow embedding of the RPLidar A2 proximity driver
(src/libraries/AP_Proximity/AP_Proximity_RPLidarA2.h and .cpp).

Machine bytes are modelled as natural numbers; the uint8 bit fields of the
scan payload are extracted with explicit divisions and moduli.  The float
quantities (angles in degrees, distances in meters) are modelled as exact
rationals; every division performed by the code (by 64.0f and 4000.0f) is
exact in the reals, so the rational model agrees with the float code on all
in-range inputs.  Timestamps (AP_HAL::millis()) are naturals threaded
explicitly through the functions that read the clock.

The front/back planar-obstacle estimator block inside parse_response_data
(cpp lines 522-726) reads and writes only its own fields
(angle_left_front, distant_left_front, ..., lidarA2_test) involving
floating-point trigonometry; it never touches the decoder state, the sync
counter, the sector arrays, or the retained minimum, so it is omitted from
the modelled state.  The external collaborators convert_angle_to_sector and
update_boundary_for_sector live in AP_Proximity_Backend (outside this
repository's sources); the angle-to-sector map is passed as an explicit
parameter, and the boundary notification has no effect on modelled state.
-/

namespace RPLidarA2

/-- Decoder states, header lines 74-80 (enum rp_state). -/
inductive RpState where
  | rp_unknown
  | rp_resetted
  | rp_responding
  | rp_measurements
  | rp_health
  deriving DecidableEq, Repr

/-- Response types, header lines 82-87 (enum ResponseType). -/
inductive ResponseType where
  | descriptor
  | scan
  | express
  | health
  deriving DecidableEq, Repr

/-- Consumer-visible proximity status set by update(), cpp lines 121-129. -/
inductive ProxStatus where
  | noData
  | good
  deriving DecidableEq, Repr

/-- Instance state of AP_Proximity_RPLidarA2 (header lines 101-149 plus the
sector arrays inherited from the backend).  Byte arrays are modelled as
functions from index to byte.  The two fields meas_count and last_meas_ms
are ghost observations (number of successfully decoded scan samples and the
time of the last one); they are written exactly where cpp line 745 runs and
are read by no modelled function, so they do not alter any behaviour. -/
structure RPState where
  rp_state : RpState
  response_type : ResponseType
  descriptor_data : Bool
  information_data : Bool
  resetted : Bool
  payload_length : ℕ
  cnt : ℕ
  sync_error : ℕ
  byte_count : ℕ
  descriptor : ℕ → ℕ
  systeminfo : ℕ → ℕ
  payload : ℕ → ℕ
  last_sector : ℕ
  last_request_ms : ℕ
  last_distance_received_ms : ℕ
  last_reset_ms : ℕ
  angle_deg_last : ℚ
  distance_m_last : ℚ
  angle : ℕ → ℚ
  distance : ℕ → ℚ
  distance_valid : ℕ → Bool
  meas_count : ℕ
  last_meas_ms : ℕ

/-- distance_min(), cpp lines 153-156: 0.20 m. -/
def distance_min_q : ℚ := 1 / 5

/-- distance_max(), cpp lines 140-143: 16 m. -/
def distance_max_q : ℚ := 16

/-- Decoded bit fields of the 5-byte scan payload (struct _sensor_scan,
header lines 151-158).  Little-endian packed bit fields: byte 0 carries
startbit (bit 0), not_startbit (bit 1) and quality (bits 2-7); byte 1
carries checkbit (bit 0) and the low 7 bits of angle_q6 (bits 1-7); byte 2
carries the high 8 bits of angle_q6; bytes 3-4 carry distance_q2
little-endian. -/
structure ScanFields where
  startbit : Bool
  not_startbit : Bool
  quality : ℕ
  checkbit : Bool
  angle_q6 : ℕ
  distance_q2 : ℕ

/-- Bit-field extraction from the 5 raw payload bytes, per the PACKED
struct _sensor_scan layout (header lines 151-158). -/
def decode_scan (b0 b1 b2 b3 b4 : ℕ) : ScanFields :=
  { startbit := b0.testBit 0
    not_startbit := b0.testBit 1
    quality := b0 / 4 % 64
    checkbit := b1.testBit 0
    angle_q6 := b1 / 2 % 128 + 128 * (b2 % 256)
    distance_q2 := b3 % 256 + 256 * (b4 % 256) }

/-- Validity check and fixed-point conversion of a scan payload, cpp lines
517-520: a packet is valid when the start bits are complementary and the
check bit is set; then angle_deg = angle_q6/64.0 and distance_m =
distance_q2/4000.0. -/
def scan_decode (b0 b1 b2 b3 b4 : ℕ) : Option (ℚ × ℚ) :=
  let f := decode_scan b0 b1 b2 b3 b4
  if f.startbit = !f.not_startbit ∧ f.checkbit = true then
    some ((f.angle_q6 : ℚ) / 64, (f.distance_q2 : ℚ) / 4000)
  else none

/-- The health-branch diagnostic condition of parse_response_data, cpp lines
777-781: the code raises its LIDAR-error diagnostic only when the health
status byte equals 3, although its own header (lines 160-163) defines the
status values as 0 good / 1 warning / 2 error. -/
def health_reports_error (status : ℕ) : Bool := status == 3

/-- reset_rplidar(), cpp lines 191-204: sends the reset command and moves
the decoder to rp_resetted. -/
def reset_rplidar (now : ℕ) (st : RPState) : RPState :=
  { st with resetted := true, last_reset_ms := now, rp_state := .rp_resetted }

/-- set_scan_mode(), cpp lines 288-299. -/
def set_scan_mode (now : ℕ) (st : RPState) : RPState :=
  { st with last_request_ms := now, rp_state := .rp_responding }

/-- Sector-aggregation step of parse_response_data for one decoded sample,
cpp lines 746-768.  angleToSector models convert_angle_to_sector from
AP_Proximity_Backend (outside src): it yields the sector an angle maps to,
when any.  update_boundary_for_sector (cpp line 760) is an external
notification with no effect on modelled state. -/
def ingest_sample (angleToSector : ℚ → Option ℕ) (angle_deg distance_m : ℚ)
    (st : RPState) : RPState :=
  match angleToSector angle_deg with
  | some sector =>
    if distance_min_q < distance_m then
      if st.last_sector = sector then
        if distance_m < st.distance_m_last then
          { st with distance_m_last := distance_m, angle_deg_last := angle_deg }
        else st
      else
        { st with
          angle := Function.update st.angle st.last_sector st.angle_deg_last
          distance := Function.update st.distance st.last_sector st.distance_m_last
          distance_valid := Function.update st.distance_valid st.last_sector true
          last_sector := sector
          distance_m_last := distance_m
          angle_deg_last := angle_deg }
    else
      { st with distance_valid := Function.update st.distance_valid sector false }
  | none => st

/-- parse_response_data(), cpp lines 508-789.  The scan branch validates the
payload (cpp line 518); on success it stamps the activity time (line 745)
and runs the sector aggregation (lines 746-768); on failure it increments
the uint8 sync-error counter (line 773).  The health branch (lines 777-782)
only emits the diagnostic captured by health_reports_error and leaves the
state unchanged; the default branch does nothing. -/
def parse_response_data (angleToSector : ℚ → Option ℕ) (now : ℕ)
    (st : RPState) : RPState :=
  match st.response_type with
  | .scan =>
    match scan_decode (st.payload 0) (st.payload 1) (st.payload 2)
        (st.payload 3) (st.payload 4) with
    | some (angle_deg, distance_m) =>
      ingest_sample angleToSector angle_deg distance_m
        { st with last_distance_received_ms := now
                  meas_count := st.meas_count + 1
                  last_meas_ms := now }
    | none => { st with sync_error := (st.sync_error + 1) % 256 }
  | _ => st

/-- parse_response_descriptor(), cpp lines 468-496: header bytes must be
0xA5 0x5A; the scan template selects a 5-byte scan stream, the health
template a 3-byte health stream (the two ifs are sequential in the source);
a bad header forces rp_unknown, while a valid header with an unrecognized
body returns with the state untouched. -/
def parse_response_descriptor (now : ℕ) (st : RPState) : RPState :=
  if st.descriptor 0 = 0xA5 ∧ st.descriptor 1 = 0x5A then
    let st1 :=
      if st.descriptor 2 = 0x05 ∧ st.descriptor 3 = 0x00 ∧
          st.descriptor 4 = 0x00 ∧ st.descriptor 5 = 0x40 ∧
          st.descriptor 6 = 0x81 then
        { st with payload_length := 5, response_type := .scan
                  last_distance_received_ms := now
                  rp_state := .rp_measurements }
      else st
    if st.descriptor 2 = 0x03 ∧ st.descriptor 3 = 0x00 ∧
        st.descriptor 4 = 0x00 ∧ st.descriptor 5 = 0x00 ∧
        st.descriptor 6 = 0x06 then
      { st1 with payload_length := 3, response_type := .health
                 last_distance_received_ms := now
                 rp_state := .rp_health }
    else st1
  else { st with rp_state := .rp_unknown }

/-- Payload accumulation inside the rp_measurements case, cpp lines 422-431:
store the byte, and when the counter reaches the payload length parse the
payload and reset the counter. -/
def accumulate_measurement (angleToSector : ℚ → Option ℕ) (now c : ℕ)
    (st : RPState) : RPState :=
  let st1 := { st with payload := Function.update st.payload st.byte_count c
                       byte_count := st.byte_count + 1 }
  if st1.byte_count = st1.payload_length then
    { parse_response_data angleToSector now st1 with byte_count := 0 }
  else st1

/-- The rp_measurements case of get_readings, cpp lines 403-432: with the
sync-error flag set, a byte whose low two bits are 01 clears the flag and
falls through to accumulation; any other byte is dropped (triggering a
device reset if no distance arrived for RESYNC_TIMEOUT = 5000 ms). -/
def step_measurements (angleToSector : ℚ → Option ℕ) (now c : ℕ)
    (st : RPState) : RPState :=
  if st.sync_error ≠ 0 then
    if c % 4 = 1 then
      accumulate_measurement angleToSector now c { st with sync_error := 0 }
    else if now - st.last_distance_received_ms > 5000 then
      reset_rplidar now st
    else st
  else accumulate_measurement angleToSector now c st

/-- The rp_responding case of get_readings, cpp lines 381-401: accumulate 7
descriptor bytes beginning at a preamble byte, then classify; a non-preamble
byte before any descriptor byte forces rp_unknown. -/
def step_responding (now c : ℕ) (st : RPState) : RPState :=
  if c = 0xA5 ∨ st.descriptor_data = true then
    let st1 := { st with descriptor_data := true
                         descriptor := Function.update st.descriptor st.byte_count c
                         byte_count := st.byte_count + 1 }
    if st1.byte_count = 7 then
      { parse_response_descriptor now { st1 with response_type := .descriptor }
          with byte_count := 0 }
    else st1
  else { st with rp_state := .rp_unknown }

/-- The rp_resetted case of get_readings, cpp lines 346-379: consume up to
62 bytes of device-info (tag byte 0x52), then request scan mode; without
device info, fall to rp_unknown after a bounded retry count. -/
def step_resetted (now c : ℕ) (st : RPState) : RPState :=
  if (c = 0x52 ∨ st.information_data = true) ∧ st.byte_count < 62 then
    { st with information_data := if c = 0x52 then true else st.information_data
              systeminfo := Function.update st.systeminfo st.byte_count c
              byte_count := st.byte_count + 1 }
  else if st.information_data = true then
    set_scan_mode now { st with information_data := false, byte_count := 0 }
  else if st.cnt > 5 then
    { st with rp_state := .rp_unknown, cnt := 0 }
  else { st with cnt := st.cnt + 1 }

/-- The rp_unknown case of get_readings, cpp lines 438-453: a preamble byte
switches to rp_responding and re-dispatches the same byte (the goto STATE);
after more than 10 other bytes the device is reset. -/
def step_unknown (now c : ℕ) (st : RPState) : RPState :=
  if c = 0xA5 then
    step_responding now c { st with rp_state := .rp_responding }
  else
    let st1 := { st with cnt := st.cnt + 1 }
    if st1.cnt > 10 then { reset_rplidar now st1 with cnt := 0 }
    else st1

/-- One iteration of the byte loop of get_readings(), cpp lines 336-459:
dispatch on the decoder state.  The rp_health case (lines 434-436) only
prints a debug line and discards the byte. -/
def step_byte (angleToSector : ℚ → Option ℕ) (now c : ℕ) (st : RPState) :
    RPState :=
  match st.rp_state with
  | .rp_resetted => step_resetted now c st
  | .rp_responding => step_responding now c st
  | .rp_measurements => step_measurements angleToSector now c st
  | .rp_health => st
  | .rp_unknown => step_unknown now c st

/-- The health check at the end of update(), cpp lines 121-129: NoData when
no activity timestamp was ever recorded or the last one is more than
COMM_ACTIVITY_TIMEOUT_MS = 200 ms old, Good otherwise.  The uint32
subtraction is modelled as truncated natural subtraction (timestamps are
monotone within a session, so no wrap occurs). -/
def update_status (now : ℕ) (st : RPState) : ProxStatus :=
  if st.last_distance_received_ms = 0 ∨
      now - st.last_distance_received_ms > 200 then .noData
  else .good

/-- The state after the constructor, cpp lines 66-79: _cnt, _sync_error and
_byte_count are set to zero; the remaining members of the zero-initialised
instance start at zero/false (rp_state 0 = rp_unknown). -/
def initState : RPState :=
  { rp_state := .rp_unknown
    response_type := .descriptor
    descriptor_data := false
    information_data := false
    resetted := false
    payload_length := 0
    cnt := 0
    sync_error := 0
    byte_count := 0
    descriptor := fun _ => 0
    systeminfo := fun _ => 0
    payload := fun _ => 0
    last_sector := 0
    last_request_ms := 0
    last_distance_received_ms := 0
    last_reset_ms := 0
    angle_deg_last := 0
    distance_m_last := 0
    angle := fun _ => 0
    distance := fun _ => 0
    distance_valid := fun _ => false
    meas_count := 0
    last_meas_ms := 0 }

/-- States reachable by the driver: the constructed state, closed under
processing one byte (with any clock value, byte, and angle-to-sector map)
and under the explicit device reset issued by initialise(). -/
inductive Reachable : RPState → Prop where
  | init : Reachable initState
  | step (angleToSector : ℚ → Option ℕ) (now c : ℕ) {st : RPState} :
      Reachable st → Reachable (step_byte angleToSector now c st)
  | reset (now : ℕ) {st : RPState} :
      Reachable st → Reachable (reset_rplidar now st)

/-- Folding a list of already-decoded (angle, distance) samples through the
sector aggregation, in stream order. -/
def run_samples (angleToSector : ℚ → Option ℕ) (L : List (ℚ × ℚ))
    (st : RPState) : RPState :=
  L.foldl (fun t q => ingest_sample angleToSector q.1 q.2 t) st

/-- The retained-minimum update of cpp lines 750-753 on an (angle, distance)
pair: keep the incoming pair exactly when its distance is strictly below
the retained one. -/
def retain_min (q w : ℚ × ℚ) : ℚ × ℚ := if w.2 < q.2 then w else q

/-- wrap_360 from AP_Math (outside src).  Modelled from the spec: wrapping
at 360 degrees, yielding a value in [0, 360). -/
def wrap_360 (x : ℤ) : ℤ := x % 360

/-- The sector-subdivision loop of init_sectors(), cpp lines 242-266,
returning the list of (start angle, width) pairs.  The fuel argument is the
number of free sector slots, PROXIMITY_SECTORS_MAX - sector; the maximum
sector count is not defined under src (it lives in AP_Proximity.h), and is
modelled from the spec as 8.  Division of degrees_to_fill by 2.0f followed
by the implicit uint16 conversion truncates, which on naturals is `/ 2`. -/
def init_sectors_loop : ℕ → ℕ → ℤ → List (ℤ × ℕ)
  | 0, _, _ => []
  | fuel + 1, fill, start =>
    if fill = 0 then []
    else
      let size := if 90 ≤ fill then 45 else if 45 < fill then fill / 2 else fill
      (start, size) :: init_sectors_loop fuel (fill - size) (start + size)

/-- init_sectors() for a single configured ignore area, cpp lines 214-278.
Modelled from the spec for the parts outside src: with one blind spot
{center, width}, get_next_ignore_start_or_end yields the end of the blind
spot (center + width/2) as the open arc's start and the start of the same
blind spot (center - width/2) as its end, and degrees_to_fill is their
wrapped difference (cpp line 239). -/
def init_sectors_single (center : ℤ) (width : ℕ) : List (ℤ × ℕ) :=
  let start_angle : ℤ := center + (width : ℤ) / 2
  let end_angle : ℤ := center - (width : ℤ) / 2
  let degrees_to_fill : ℕ := (wrap_360 (end_angle - start_angle)).toNat
  init_sectors_loop 8 degrees_to_fill start_angle

/-- State used in the C3 witness: the constructed state switched to scan
responses; its payload bytes are all zero, which fails the validity check
(both start bits clear, check bit clear). -/
def stC3 : RPState := { initState with response_type := .scan }

/-- Fields decoded from the all-zero payload of stC3. -/
def fC3 : ScanFields :=
  decode_scan (stC3.payload 0) (stC3.payload 1) (stC3.payload 2)
    (stC3.payload 3) (stC3.payload 4)

/-- A two-sector angle map used by concrete witnesses: angles below 100
degrees map to sector 0, the rest to sector 1. -/
def twoSectors : ℚ → Option ℕ := fun q => if q < 100 then some 0 else some 1

/-- Descriptor byte array with a valid 0xA5 0x5A header whose body matches
neither the scan-stream nor the health-stream template. -/
def dC5 : ℕ → ℕ := fun i => [0xA5, 0x5A, 0x07, 0, 0, 0, 0].getD i 0

/-- A decoder in rp_responding holding the unrecognized descriptor dC5. -/
def stC5 : RPState :=
  { initState with rp_state := .rp_responding, descriptor := dC5 }

/-- A measurement-state decoder with the sync-error flag raised (a sync
error is always raised at a payload boundary, so the byte counter is 0 and
the payload length is the 5-byte scan length). -/
def stC8 : RPState :=
  { initState with rp_state := .rp_measurements, sync_error := 1,
                   payload_length := 5 }

/-- The seven bytes of the scan-stream response descriptor. -/
def scanDescriptorBytes : List ℕ := [0xA5, 0x5A, 0x05, 0x00, 0x00, 0x40, 0x81]

/-- Driver state after processing exactly one scan-stream descriptor at
time 1000 starting from the constructed state: no measurement was ever
decoded, yet the activity timestamp has been set by the descriptor
classification (cpp line 481). -/
def stC7 : RPState :=
  scanDescriptorBytes.foldl (fun s c => step_byte (fun _ => none) 1000 c s)
    initState

/-- State with sector 0 open on the retained pair (5 deg, 3 m), used by
the C1 witness. -/
def stC1 : RPState :=
  { initState with last_sector := 0, angle_deg_last := 5, distance_m_last := 3 }

/-- Witness dwell samples, all in sector 0 of twoSectors and in range. -/
def LC1 : List (ℚ × ℚ) := [(10, 1), (20, 2)]

/-- Witness boundary sample: 150 degrees (sector 1), 3.5 m. -/
def pC1 : ℚ × ℚ := (150, 7 / 2)

/-- Evaluation of the decode pipeline on the payload bytes 0x01 0x01 0x05
0x40 0x1F. -/
lemma scan_decode_example : scan_decode 1 1 5 64 31 = some (10, 2) := by
  simp only [scan_decode, decode_scan, show Nat.testBit 1 0 = true from rfl,
    show Nat.testBit 1 1 = false from rfl]
  norm_num

/-- Claim C2: every scan payload accepted as valid (complementary start
bits and a set check bit) decodes to angleDeg = angleField/64 and distanceM
= distanceField/4000, where angleField and distanceField are the 15-bit and
16-bit fields extracted from the raw bytes; in particular the payload bytes
0x01 0x01 0x05 0x40 0x1F (angle field 640 = 10 times 64, distance field
8000 = 2 times 4000) decode to exactly (10, 2), hence within tolerance
1/1000. -/
theorem C2_scan_decode_fields (b0 b1 b2 b3 b4 : ℕ) (a d : ℚ)
    (h : scan_decode b0 b1 b2 b3 b4 = some (a, d)) :
    (64 * a = ((b1 / 2 % 128 + 128 * (b2 % 256) : ℕ) : ℚ) ∧
      4000 * d = ((b3 % 256 + 256 * (b4 % 256) : ℕ) : ℚ)) ∧
    scan_decode 1 1 5 64 31 = some (10, 2) ∧
    (∀ a2 d2 : ℚ, scan_decode 1 1 5 64 31 = some (a2, d2) →
      |a2 - 10| ≤ 1 / 1000 ∧ |d2 - 2| ≤ 1 / 1000) := by
  refine ⟨?_, scan_decode_example, ?_⟩
  · simp only [scan_decode] at h
    split at h
    · simp only [Option.some.injEq, Prod.mk.injEq] at h
      obtain ⟨ha, hd⟩ := h
      constructor
      · rw [← ha]; simp only [decode_scan]; ring
      · rw [← hd]; simp only [decode_scan]; ring
    · exact absurd h (by simp)
  · intro a2 d2 h2
    rw [scan_decode_example, Option.some.injEq, Prod.mk.injEq] at h2
    obtain ⟨ha2, hd2⟩ := h2
    subst ha2; subst hd2
    norm_num

/-- Witness for Claim C2 at the concrete payload bytes 1 1 5 64 31. -/
theorem C2_scan_decode_fields_witness :
    scan_decode 1 1 5 64 31 = some (10, 2) ∧
    (64 * (10 : ℚ) = ((1 / 2 % 128 + 128 * (5 % 256) : ℕ) : ℚ) ∧
      4000 * (2 : ℚ) = ((64 % 256 + 256 * (31 % 256) : ℕ) : ℚ)) :=
  ⟨scan_decode_example,
    (C2_scan_decode_fields 1 1 5 64 31 10 2 scan_decode_example).1⟩

/-- Claim C3: a scan payload whose start bits are equal or whose check bit
is clear never becomes a committed sector reading (the whole state except
the sync-error counter is untouched, so no committed angle, distance or
validity flag changes) and bumps the sync-error counter by exactly one
(the counter is a uint8, hence the mod 256; the increment is exact while
the counter stays below 255). -/
theorem C3_invalid_payload_rejected (angleToSector : ℚ → Option ℕ)
    (now : ℕ) (st : RPState) (f : ScanFields)
    (hty : st.response_type = .scan)
    (hf : f = decode_scan (st.payload 0) (st.payload 1) (st.payload 2)
      (st.payload 3) (st.payload 4))
    (hinv : f.startbit = f.not_startbit ∨ f.checkbit = false) :
    parse_response_data angleToSector now st =
      { st with sync_error := (st.sync_error + 1) % 256 } ∧
    (st.sync_error + 1 < 256 →
      (parse_response_data angleToSector now st).sync_error =
        st.sync_error + 1) := by
  have hnone : scan_decode (st.payload 0) (st.payload 1) (st.payload 2)
      (st.payload 3) (st.payload 4) = none := by
    unfold scan_decode
    rw [← hf]
    have hcond : ¬ (f.startbit = !f.not_startbit ∧ f.checkbit = true) := by
      rcases hinv with h | h
      · intro hc
        rw [h] at hc
        cases hb : f.not_startbit <;> rw [hb] at hc <;> simp at hc
      · intro hc
        rw [h] at hc
        simp at hc
    simp [hcond]
  have hmain : parse_response_data angleToSector now st =
      { st with sync_error := (st.sync_error + 1) % 256 } := by
    unfold parse_response_data
    rw [hty]
    simp only [hnone]
  refine ⟨hmain, fun hlt => ?_⟩
  rw [hmain]
  exact Nat.mod_eq_of_lt hlt

/-- Witness for Claim C3 at an all-zero (hence invalid) payload. -/
theorem C3_invalid_payload_rejected_witness :
    stC3.response_type = .scan ∧
    (fC3.startbit = fC3.not_startbit ∨ fC3.checkbit = false) ∧
    (parse_response_data (fun _ => none) 7 stC3 =
      { stC3 with sync_error := (stC3.sync_error + 1) % 256 } ∧
    (stC3.sync_error + 1 < 256 →
      (parse_response_data (fun _ => none) 7 stC3).sync_error =
        stC3.sync_error + 1)) :=
  ⟨rfl, by decide,
    C3_invalid_payload_rejected (fun _ => none) 7 stC3 fC3 rfl rfl (by decide)⟩

/-- Claim C10: a valid scan sample at or below the sensor dead zone only
clears the validity flag of the sector its angle maps to: the open sector,
the retained minimum and its paired angle, and every committed reading are
untouched, even when the sample's sector differs from the open one — so a
sector boundary crossed only by dead-zone samples produces no commit. -/
theorem C10_deadzone_sample (angleToSector : ℚ → Option ℕ)
    (a d : ℚ) (s : ℕ) (st : RPState)
    (hsec : angleToSector a = some s) (hd : d ≤ distance_min_q) :
    ingest_sample angleToSector a d st =
      { st with distance_valid := Function.update st.distance_valid s false } ∧
    (ingest_sample angleToSector a d st).last_sector = st.last_sector ∧
    (ingest_sample angleToSector a d st).distance_m_last = st.distance_m_last ∧
    (ingest_sample angleToSector a d st).angle_deg_last = st.angle_deg_last ∧
    (ingest_sample angleToSector a d st).angle = st.angle ∧
    (ingest_sample angleToSector a d st).distance = st.distance := by
  have hmain : ingest_sample angleToSector a d st =
      { st with distance_valid := Function.update st.distance_valid s false } := by
    unfold ingest_sample
    rw [hsec]
    simp [not_lt.mpr hd]
  rw [hmain]
  exact ⟨rfl, rfl, rfl, rfl, rfl, rfl⟩

/-- Evaluation of the witness angle map at 150 degrees. -/
lemma twoSectors_150 : twoSectors 150 = some 1 := by norm_num [twoSectors]

/-- A 0.1 m reading lies inside the sensor dead zone. -/
lemma deadzone_example : (1 : ℚ) / 10 ≤ distance_min_q := by
  norm_num [distance_min_q]

/-- Witness for Claim C10: a 0.1 m sample at 150 degrees, mapping to sector
1 while sector 0 is open, only invalidates sector 1. -/
theorem C10_deadzone_sample_witness :
    (twoSectors 150 = some 1) ∧
    ((1 : ℚ) / 10 ≤ distance_min_q) ∧
    ingest_sample twoSectors 150 (1 / 10) initState =
      { initState with
          distance_valid := Function.update initState.distance_valid 1 false } :=
  ⟨twoSectors_150, deadzone_example,
    (C10_deadzone_sample twoSectors 150 (1 / 10) 1 initState
      twoSectors_150 deadzone_example).1⟩

/-- Counterexample to Claim C5: the completed descriptor 0xA5 0x5A 0x07 00
00 00 00 matches neither template, yet parse_response_descriptor leaves the
decoder in rp_responding instead of forcing rp_unknown (the code falls back
to rp_unknown only when the two header bytes are wrong, cpp lines 471,
492-495). -/
theorem C5_descriptor_counterexample :
    stC5.descriptor 0 = 0xA5 ∧ stC5.descriptor 1 = 0x5A ∧
    (¬ (stC5.descriptor 2 = 0x05 ∧ stC5.descriptor 3 = 0x00 ∧
        stC5.descriptor 4 = 0x00 ∧ stC5.descriptor 5 = 0x40 ∧
        stC5.descriptor 6 = 0x81)) ∧
    (¬ (stC5.descriptor 2 = 0x03 ∧ stC5.descriptor 3 = 0x00 ∧
        stC5.descriptor 4 = 0x00 ∧ stC5.descriptor 5 = 0x00 ∧
        stC5.descriptor 6 = 0x06)) ∧
    (parse_response_descriptor 0 stC5).rp_state = .rp_responding ∧
    RpState.rp_responding ≠ RpState.rp_unknown := by
  refine ⟨rfl, rfl, by decide, by decide, ?_, by decide⟩
  rfl

/-- Claim C5 as amended: a completed descriptor whose first two bytes are
not 0xA5 0x5A forces the decoder to rp_unknown; a descriptor with a valid
header whose remaining five bytes match neither the scan-stream nor the
health-stream template is ignored, leaving the whole state unchanged. -/
theorem C5_descriptor_amended (now : ℕ) (st : RPState) :
    (¬ (st.descriptor 0 = 0xA5 ∧ st.descriptor 1 = 0x5A) →
      (parse_response_descriptor now st).rp_state = .rp_unknown) ∧
    ((st.descriptor 0 = 0xA5 ∧ st.descriptor 1 = 0x5A) →
      ¬ (st.descriptor 2 = 0x05 ∧ st.descriptor 3 = 0x00 ∧
          st.descriptor 4 = 0x00 ∧ st.descriptor 5 = 0x40 ∧
          st.descriptor 6 = 0x81) →
      ¬ (st.descriptor 2 = 0x03 ∧ st.descriptor 3 = 0x00 ∧
          st.descriptor 4 = 0x00 ∧ st.descriptor 5 = 0x00 ∧
          st.descriptor 6 = 0x06) →
      parse_response_descriptor now st = st) := by
  constructor
  · intro hhdr
    unfold parse_response_descriptor
    simp [hhdr]
  · intro hhdr hscan hhealth
    unfold parse_response_descriptor
    simp [hhdr, hscan, hhealth]

/-- Witness for Claim C5 as amended, at the unrecognized descriptor dC5. -/
theorem C5_descriptor_amended_witness :
    (stC5.descriptor 0 = 0xA5 ∧ stC5.descriptor 1 = 0x5A) ∧
    (¬ (stC5.descriptor 2 = 0x05 ∧ stC5.descriptor 3 = 0x00 ∧
        stC5.descriptor 4 = 0x00 ∧ stC5.descriptor 5 = 0x40 ∧
        stC5.descriptor 6 = 0x81)) ∧
    (¬ (stC5.descriptor 2 = 0x03 ∧ stC5.descriptor 3 = 0x00 ∧
        stC5.descriptor 4 = 0x00 ∧ stC5.descriptor 5 = 0x00 ∧
        stC5.descriptor 6 = 0x06)) ∧
    parse_response_descriptor 0 stC5 = stC5 :=
  ⟨by decide, by decide, by decide,
    (C5_descriptor_amended 0 stC5).2 (by decide) (by decide) (by decide)⟩

/-- Claim C6, code bug: the health branch of parse_response_data flags a
device error only for status byte 3, never for status 2 — the error value
documented by its own header (lines 160-163) — and the rp_health decoder
state (cpp lines 434-436) discards every incoming byte without entering
any accumulation path, so no health payload is ever decoded at all. -/
theorem C6_health_code_bug :
    health_reports_error 2 = false ∧ health_reports_error 3 = true ∧
    ∀ (angleToSector : ℚ → Option ℕ) (now c : ℕ) (st : RPState),
      step_byte angleToSector now c { st with rp_state := .rp_health } =
        { st with rp_state := .rp_health } :=
  ⟨rfl, rfl, fun _ _ _ _ => rfl⟩

/-- Claim C8: while the sync-error flag is set in the measurement state,
a byte whose low two bits are not 01 is dropped without touching the
payload accumulator or the flag (at most triggering a device reset on the
5 s resync timeout), and the first byte whose low two bits are 01 clears
the flag and is itself stored as the first byte of the resumed payload. -/
theorem C8_resync (angleToSector : ℚ → Option ℕ) (now c : ℕ) (st : RPState)
    (hst : st.rp_state = .rp_measurements) (hsync : st.sync_error ≠ 0)
    (hbc : st.byte_count = 0) (hpl : st.payload_length = 5) :
    (c % 4 ≠ 1 →
      (step_byte angleToSector now c st).payload = st.payload ∧
      (step_byte angleToSector now c st).byte_count = st.byte_count ∧
      (step_byte angleToSector now c st).sync_error = st.sync_error) ∧
    (c % 4 = 1 →
      step_byte angleToSector now c st =
        { st with sync_error := 0,
                  payload := Function.update st.payload 0 c,
                  byte_count := 1 }) := by
  have hdisp : step_byte angleToSector now c st =
      step_measurements angleToSector now c st := by
    unfold step_byte
    rw [hst]
  constructor
  · intro hc
    rw [hdisp]
    unfold step_measurements
    rw [if_pos hsync, if_neg hc]
    split_ifs with ht
    · exact ⟨rfl, rfl, rfl⟩
    · exact ⟨rfl, rfl, rfl⟩
  · intro hc
    rw [hdisp]
    unfold step_measurements
    rw [if_pos hsync, if_pos hc]
    unfold accumulate_measurement
    simp only [hbc]
    norm_num [hpl]

/-- Witness for Claim C8: in state stC8, byte 0x05 (low bits 01) resumes
accumulation with itself as the first payload byte, while byte 0x02 is
dropped. -/
theorem C8_resync_witness :
    (stC8.rp_state = .rp_measurements ∧ stC8.sync_error ≠ 0 ∧
      stC8.byte_count = 0 ∧ stC8.payload_length = 5) ∧
    step_byte (fun _ => none) 0 5 stC8 =
      { stC8 with sync_error := 0,
                  payload := Function.update stC8.payload 0 5,
                  byte_count := 1 } ∧
    ((step_byte (fun _ => none) 0 2 stC8).payload = stC8.payload ∧
      (step_byte (fun _ => none) 0 2 stC8).byte_count = stC8.byte_count ∧
      (step_byte (fun _ => none) 0 2 stC8).sync_error = stC8.sync_error) :=
  ⟨⟨rfl, by decide, rfl, rfl⟩,
    (C8_resync (fun _ => none) 0 5 stC8 rfl (by decide) rfl rfl).2 (by decide),
    (C8_resync (fun _ => none) 0 2 stC8 rfl (by decide) rfl rfl).1 (by decide)⟩

/-- Sector aggregation never touches the sync-error counter. -/
lemma ingest_sync_eq (ats : ℚ → Option ℕ) (a d : ℚ) (st : RPState) :
    (ingest_sample ats a d st).sync_error = st.sync_error := by
  unfold ingest_sample
  cases h : ats a with
  | none => rfl
  | some s =>
    dsimp only
    split_ifs <;> rfl

/-- Descriptor classification never touches the sync-error counter. -/
lemma desc_sync_eq (now : ℕ) (st : RPState) :
    (parse_response_descriptor now st).sync_error = st.sync_error := by
  unfold parse_response_descriptor
  split_ifs <;> rfl

/-- Payload parsing started with a clear sync-error counter leaves it at
most 1: a rejected scan payload sets it to exactly 1, everything else
leaves it at 0. -/
lemma parse_response_data_sync_le (ats : ℚ → Option ℕ) (now : ℕ)
    (st : RPState) (h : st.sync_error = 0) :
    (parse_response_data ats now st).sync_error ≤ 1 := by
  unfold parse_response_data
  cases hrt : st.response_type with
  | scan =>
    cases hsd : scan_decode (st.payload 0) (st.payload 1) (st.payload 2)
        (st.payload 3) (st.payload 4) with
    | none => simp [h]
    | some p =>
      obtain ⟨a, d⟩ := p
      rw [ingest_sync_eq]
      simp [h]
  | descriptor => simp [h]
  | express => simp [h]
  | health => simp [h]

/-- Payload accumulation started with a clear sync-error counter leaves it
at most 1. -/
lemma accumulate_sync_le (ats : ℚ → Option ℕ) (now c : ℕ) (st : RPState)
    (h : st.sync_error = 0) :
    (accumulate_measurement ats now c st).sync_error ≤ 1 := by
  simp only [accumulate_measurement]
  split_ifs with hb
  · exact parse_response_data_sync_le ats now _ (by simpa using h)
  · show st.sync_error ≤ 1
    omega

/-- The rp_responding byte handler never touches the sync-error counter. -/
lemma step_responding_sync_eq (now c : ℕ) (st : RPState) :
    (step_responding now c st).sync_error = st.sync_error := by
  simp only [step_responding]
  split_ifs <;> simp [desc_sync_eq]

/-- Processing one byte preserves the bound sync_error at most 1. -/
lemma step_sync_le (ats : ℚ → Option ℕ) (now c : ℕ) (st : RPState)
    (h : st.sync_error ≤ 1) : (step_byte ats now c st).sync_error ≤ 1 := by
  unfold step_byte
  cases hrt : st.rp_state with
  | rp_resetted =>
    unfold step_resetted set_scan_mode
    split_ifs <;> simpa using h
  | rp_responding => rw [step_responding_sync_eq]; exact h
  | rp_measurements =>
    unfold step_measurements
    split_ifs with h1 h2 h3
    · exact accumulate_sync_le _ _ _ _ (by simp)
    · simpa [reset_rplidar] using h
    · exact h
    · exact accumulate_sync_le _ _ _ _ (by omega)
  | rp_health => exact h
  | rp_unknown =>
    simp only [step_unknown]
    split_ifs with h1 h2
    · rw [step_responding_sync_eq]; exact h
    · simpa [reset_rplidar] using h
    · exact h

/-- Claim C9: in every reachable state the sync-error counter holds 0 or 1:
it is only incremented by a rejected payload inside parse_response_data,
which the measurement state reaches only after the counter is clear (a
nonzero counter diverts bytes to the resync scan, and the resync byte
clears it before accumulation resumes), so the uint8 increment never
exceeds 1. -/
theorem C9_sync_error_bounded (st : RPState) (h : Reachable st) :
    st.sync_error ≤ 1 := by
  induction h with
  | init => exact Nat.zero_le 1
  | step ats now c hr ih => exact step_sync_le _ _ _ _ ih
  | reset now hr ih => simpa [reset_rplidar] using ih

/-- Witness for Claim C9 at the constructed initial state. -/
theorem C9_sync_error_bounded_witness :
    Reachable initState ∧ initState.sync_error ≤ 1 :=
  ⟨Reachable.init, C9_sync_error_bounded initState Reachable.init⟩

/-- stC7 is reachable: seven byte-processing steps from the initial
state. -/
lemma stC7_reachable : Reachable stC7 :=
  Reachable.step (fun _ => none) 1000 0x81
    (Reachable.step (fun _ => none) 1000 0x40
      (Reachable.step (fun _ => none) 1000 0x00
        (Reachable.step (fun _ => none) 1000 0x00
          (Reachable.step (fun _ => none) 1000 0x05
            (Reachable.step (fun _ => none) 1000 0x5A
              (Reachable.step (fun _ => none) 1000 0xA5 Reachable.init))))))

/-- Counterexample to Claim C7: the reachable state stC7 has zero
successful measurement decodes ever, yet update() at time 1100 reports
Good, because cpp lines 481 and 489 refresh _last_distance_received_ms on
descriptor classification, not only on measurement decode.  So the status
is not NoData exactly when no measurement decode has ever occurred or more
than 200 ms elapsed since the last one. -/
theorem C7_status_counterexample :
    ¬ ∀ (st : RPState) (now : ℕ), Reachable st →
        (update_status now st = .noData ↔
          (st.meas_count = 0 ∨ now - st.last_meas_ms > 200)) := by
  intro hclaim
  have hmeas : stC7.meas_count = 0 := rfl
  have hnd := (hclaim stC7 1100 stC7_reachable).2 (Or.inl hmeas)
  have hgood : update_status 1100 stC7 = .good := rfl
  rw [hgood] at hnd
  exact absurd hnd (by decide)

/-- Claim C7 as amended: after update() the status is NoData exactly when
the activity timestamp is unset (0) or lies more than 200 ms in the past;
that timestamp is refreshed by successful descriptor classification as
well as by valid measurement decodes.  In particular a freshly started
driver (timestamp 0) reports NoData at any time, while the state stC7
that classified one descriptor at 1000 ms with zero measurement decodes
stays Good up to 1200 ms and degrades to NoData afterwards. -/
theorem C7_status_amended :
    (∀ (st : RPState) (now : ℕ),
      update_status now st = .noData ↔
        (st.last_distance_received_ms = 0 ∨
          now - st.last_distance_received_ms > 200)) ∧
    (∀ now : ℕ, update_status now initState = .noData) ∧
    stC7.meas_count = 0 ∧ stC7.last_distance_received_ms = 1000 ∧
    update_status 1100 stC7 = .good ∧ update_status 1200 stC7 = .good ∧
    update_status 1201 stC7 = .noData := by
  refine ⟨?_, fun _ => rfl, rfl, rfl, rfl, rfl, rfl⟩
  intro st now
  unfold update_status
  split_ifs with hcond <;> simp [hcond]

/-- In-sector, in-range sample: cpp lines 749-753 keep the smaller of the
retained and incoming distances together with its angle. -/
lemma ingest_same_sector (ats : ℚ → Option ℕ) (s : ℕ) (a d : ℚ)
    (st : RPState) (hs : st.last_sector = s) (hsec : ats a = some s)
    (hd : distance_min_q < d) :
    ingest_sample ats a d st =
      if d < st.distance_m_last then
        { st with distance_m_last := d, angle_deg_last := a }
      else st := by
  unfold ingest_sample
  rw [hsec]
  dsimp only
  rw [if_pos hd, if_pos hs]

/-- Out-of-sector, in-range sample: cpp lines 754-765 commit the retained
pair to the previously open sector, mark it valid, and open the new sector
with the incoming sample. -/
lemma ingest_new_sector (ats : ℚ → Option ℕ) (s u : ℕ) (a d : ℚ)
    (st : RPState) (hs : st.last_sector = s) (hsec : ats a = some u)
    (hne : u ≠ s) (hd : distance_min_q < d) :
    ingest_sample ats a d st =
      { st with
        angle := Function.update st.angle s st.angle_deg_last
        distance := Function.update st.distance s st.distance_m_last
        distance_valid := Function.update st.distance_valid s true
        last_sector := u
        distance_m_last := d
        angle_deg_last := a } := by
  unfold ingest_sample
  rw [hsec]
  dsimp only
  rw [if_pos hd, if_neg (by rw [hs]; exact fun hh => hne hh.symm)]
  rw [hs]

/-- A dwell inside one sector: folding in-sector in-range samples only
evolves the retained (angle, distance) pair by retain_min, leaving the
open sector and every committed array untouched. -/
lemma run_samples_dwell (ats : ℚ → Option ℕ) (s : ℕ) (L : List (ℚ × ℚ)) :
    ∀ st : RPState, st.last_sector = s →
      (∀ q ∈ L, ats q.1 = some s ∧ distance_min_q < q.2) →
      run_samples ats L st =
        { st with
          angle_deg_last :=
            (L.foldl retain_min (st.angle_deg_last, st.distance_m_last)).1
          distance_m_last :=
            (L.foldl retain_min (st.angle_deg_last, st.distance_m_last)).2 } := by
  induction L with
  | nil => intro st hs hL; rfl
  | cons q L ih =>
    intro st hs hL
    have hq := hL q (List.mem_cons_self q L)
    have hrest : ∀ w ∈ L, ats w.1 = some s ∧ distance_min_q < w.2 :=
      fun w hw => hL w (List.mem_cons_of_mem q hw)
    show run_samples ats L (ingest_sample ats q.1 q.2 st) = _
    rw [ingest_same_sector ats s q.1 q.2 st hs hq.1 hq.2]
    by_cases hlt : q.2 < st.distance_m_last
    · rw [if_pos hlt,
        ih { st with distance_m_last := q.2, angle_deg_last := q.1 } hs hrest]
      simp [List.foldl_cons, retain_min, hlt]
    · rw [if_neg hlt, ih st hs hrest]
      simp [List.foldl_cons, retain_min, hlt]

/-- The distance component of the retain_min fold is the running minimum
of the distances seen. -/
lemma foldl_retain_min_snd (L : List (ℚ × ℚ)) :
    ∀ p : ℚ × ℚ, (L.foldl retain_min p).2 = (L.map Prod.snd).foldl min p.2 := by
  induction L with
  | nil => intro p; rfl
  | cons q L ih =>
    intro p
    simp only [List.foldl_cons, List.map_cons]
    rw [ih]
    congr 1
    unfold retain_min
    split_ifs with hlt
    · exact (min_eq_right (le_of_lt hlt)).symm
    · exact (min_eq_left (not_lt.mp hlt)).symm

/-- The retain_min fold yields either the seed pair or one of the folded
pairs: the retained angle is genuinely paired with the retained minimum
distance. -/
lemma foldl_retain_min_mem (L : List (ℚ × ℚ)) :
    ∀ p : ℚ × ℚ, L.foldl retain_min p = p ∨ L.foldl retain_min p ∈ L := by
  induction L with
  | nil => intro p; exact Or.inl rfl
  | cons q L ih =>
    intro p
    rcases ih (retain_min p q) with h | h
    · rw [List.foldl_cons, h]
      unfold retain_min
      split_ifs
      · exact Or.inr (List.mem_cons_self q L)
      · exact Or.inl rfl
    · exact Or.inr (List.mem_cons_of_mem q (by rw [List.foldl_cons]; exact h))

/-- Claim C1: over a dwell of in-range samples all mapping to the open
sector s, the aggregator commits nothing and retains the minimum distance
observed with its paired angle (the retained pair is one of the observed
samples, and its distance is the running minimum); on the first subsequent
in-range sample mapping to a different sector u it commits exactly the
retained pair to s, marks s valid — and only s, Function.update leaving
every other sector's entry unchanged — and opens u with the incoming
sample as its first candidate reading. -/
theorem C1_dwell_and_commit (ats : ℚ → Option ℕ) (s u : ℕ)
    (L : List (ℚ × ℚ)) (p : ℚ × ℚ) (st : RPState)
    (hs : st.last_sector = s)
    (hL : ∀ q ∈ L, ats q.1 = some s ∧ distance_min_q < q.2)
    (hp : ats p.1 = some u) (hne : u ≠ s) (hd : distance_min_q < p.2) :
    (run_samples ats L st).last_sector = s ∧
    (run_samples ats L st).angle = st.angle ∧
    (run_samples ats L st).distance = st.distance ∧
    (run_samples ats L st).distance_valid = st.distance_valid ∧
    (run_samples ats L st).angle_deg_last =
      (L.foldl retain_min (st.angle_deg_last, st.distance_m_last)).1 ∧
    (run_samples ats L st).distance_m_last =
      (L.map Prod.snd).foldl min st.distance_m_last ∧
    (L.foldl retain_min (st.angle_deg_last, st.distance_m_last) =
        (st.angle_deg_last, st.distance_m_last) ∨
      L.foldl retain_min (st.angle_deg_last, st.distance_m_last) ∈ L) ∧
    ingest_sample ats p.1 p.2 (run_samples ats L st) =
      { st with
        angle := Function.update st.angle s
          (L.foldl retain_min (st.angle_deg_last, st.distance_m_last)).1
        distance := Function.update st.distance s
          ((L.map Prod.snd).foldl min st.distance_m_last)
        distance_valid := Function.update st.distance_valid s true
        last_sector := u
        distance_m_last := p.2
        angle_deg_last := p.1 } := by
  have hrs := run_samples_dwell ats s L st hs hL
  have hsnd := foldl_retain_min_snd L (st.angle_deg_last, st.distance_m_last)
  refine ⟨?_, ?_, ?_, ?_, ?_, ?_, foldl_retain_min_mem L _, ?_⟩
  · rw [hrs]; exact hs
  · rw [hrs]
  · rw [hrs]
  · rw [hrs]
  · rw [hrs]
  · rw [hrs]; exact hsnd
  · rw [hrs]
    have hcommit := ingest_new_sector ats s u p.1 p.2
      { st with
        angle_deg_last :=
          (L.foldl retain_min (st.angle_deg_last, st.distance_m_last)).1
        distance_m_last :=
          (L.foldl retain_min (st.angle_deg_last, st.distance_m_last)).2 }
      hs hp hne hd
    rw [hcommit]
    simp [hsnd]

/-- The witness dwell samples map to sector 0 and are in range. -/
lemma LC1_spec : ∀ q ∈ LC1, twoSectors q.1 = some 0 ∧ distance_min_q < q.2 := by
  intro q hq
  fin_cases hq <;> constructor <;> norm_num [twoSectors, distance_min_q]

/-- The witness boundary sample maps to sector 1. -/
lemma pC1_sector : twoSectors pC1.1 = some 1 := by
  norm_num [twoSectors, pC1]

/-- The witness boundary sample is in range. -/
lemma pC1_range : distance_min_q < pC1.2 := by
  norm_num [distance_min_q, pC1]

/-- Witness for Claim C1 at the concrete dwell LC1 and crossing sample
pC1. -/
theorem C1_dwell_and_commit_witness :
    (stC1.last_sector = 0 ∧
      (∀ q ∈ LC1, twoSectors q.1 = some 0 ∧ distance_min_q < q.2) ∧
      twoSectors pC1.1 = some 1 ∧ (1 : ℕ) ≠ 0 ∧ distance_min_q < pC1.2) ∧
    ((run_samples twoSectors LC1 stC1).last_sector = 0 ∧
      (run_samples twoSectors LC1 stC1).angle = stC1.angle ∧
      (run_samples twoSectors LC1 stC1).distance = stC1.distance ∧
      (run_samples twoSectors LC1 stC1).distance_valid = stC1.distance_valid ∧
      (run_samples twoSectors LC1 stC1).angle_deg_last =
        (LC1.foldl retain_min (stC1.angle_deg_last, stC1.distance_m_last)).1 ∧
      (run_samples twoSectors LC1 stC1).distance_m_last =
        (LC1.map Prod.snd).foldl min stC1.distance_m_last ∧
      (LC1.foldl retain_min (stC1.angle_deg_last, stC1.distance_m_last) =
          (stC1.angle_deg_last, stC1.distance_m_last) ∨
        LC1.foldl retain_min (stC1.angle_deg_last, stC1.distance_m_last) ∈ LC1) ∧
      ingest_sample twoSectors pC1.1 pC1.2 (run_samples twoSectors LC1 stC1) =
        { stC1 with
          angle := Function.update stC1.angle 0
            (LC1.foldl retain_min (stC1.angle_deg_last, stC1.distance_m_last)).1
          distance := Function.update stC1.distance 0
            ((LC1.map Prod.snd).foldl min stC1.distance_m_last)
          distance_valid := Function.update stC1.distance_valid 0 true
          last_sector := 1
          distance_m_last := pC1.2
          angle_deg_last := pC1.1 }) :=
  ⟨⟨rfl, LC1_spec, pC1_sector, by decide, pC1_range⟩,
    C1_dwell_and_commit twoSectors 0 1 LC1 pC1 stC1 rfl LC1_spec pC1_sector
      (by decide) pC1_range⟩

/-- Claim C4: a single 30-degree blind spot leaves a 330-degree open arc
starting at the blind spot's end; the subdivision rule of cpp lines 242-266
produces exactly the widths 45,45,45,45,45,45,30,30 — each at most 45 —
with each sector starting where the previous one ends and the widths
summing to 330, so the open arc is covered contiguously with no gap
(within the 8-sector maximum). -/
theorem C4_sector_partition (c : ℤ) :
    init_sectors_single c 30 =
      [(c + 15, 45), (c + 60, 45), (c + 105, 45), (c + 150, 45),
        (c + 195, 45), (c + 240, 45), (c + 285, 30), (c + 315, 30)] ∧
    (∀ q ∈ init_sectors_single c 30, q.2 ≤ 45) ∧
    ((init_sectors_single c 30).map Prod.snd).sum = 330 ∧
    (∀ i : ℕ, i + 1 < (init_sectors_single c 30).length →
      ((init_sectors_single c 30).getD (i + 1) (0, 0)).1 =
        ((init_sectors_single c 30).getD i (0, 0)).1 +
          ((init_sectors_single c 30).getD i (0, 0)).2) := by
  have harg : c - ((30 : ℕ) : ℤ) / 2 - (c + ((30 : ℕ) : ℤ) / 2) = -30 := by
    omega
  have hlist : init_sectors_single c 30 =
      [(c + 15, 45), (c + 60, 45), (c + 105, 45), (c + 150, 45),
        (c + 195, 45), (c + 240, 45), (c + 285, 30), (c + 315, 30)] := by
    simp only [init_sectors_single]
    rw [harg, show wrap_360 (-30) = 330 from by decide,
      show ((330 : ℤ)).toNat = 330 from by decide]
    norm_num [init_sectors_loop]
    omega
  refine ⟨hlist, ?_, ?_, ?_⟩
  · rw [hlist]
    intro q hq
    fin_cases hq <;> norm_num
  · rw [hlist]
    norm_num
  · rw [hlist]
    intro i hi
    have hi7 : i < 7 := by
      simp only [List.length_cons, List.length_nil] at hi
      omega
    interval_cases i <;>
      simp [List.getD_cons_zero, List.getD_cons_succ] <;> ring

/-- Witness for Claim C4's contiguity conjunct at center 0 and index 0. -/
theorem C4_sector_partition_witness :
    (0 + 1 < (init_sectors_single 0 30).length) ∧
    ((init_sectors_single 0 30).getD (0 + 1) (0, 0)).1 =
      ((init_sectors_single 0 30).getD 0 (0, 0)).1 +
        ((init_sectors_single 0 30).getD 0 (0, 0)).2 :=
  ⟨by decide, (C4_sector_partition 0).2.2.2 0 (by decide)⟩

end RPLidarA2
